import Mathlib

/-!
Verification development for the dashboard-bhnt repository.

The definitions below are shallow embeddings of the repository's routing,
navigation, activity-recording and task-state code:

* `getMenuPath`, `navigateToTask`'s path resolution —
  `SINGLE_SOURCE_OF_TRUTH_ARCHITECTURE.md` (index.html:1720-1734);
* `resolve` — the router of `IMPLEMENTATION_NOTES.md` (index.html:4405-4447);
* `loadDynamicMenus`' snapshot handler and `renderSidebarDynamic` —
  `IMPLEMENTATION_NOTES.md` (index.html:5442-5481, 6063-6093);
* `recordActivityEntry` — `SINGLE_SOURCE_OF_TRUTH_ARCHITECTURE.md`
  (index.html:2419-2434);
* `normalizeStatus`, `isTaskCompleted` — `TaskItem.js`;
* `handleTaskEdit` — `IMPLEMENTATION_NOTES.md` (TaskList.js handlers).

JavaScript conventions used throughout the embedding: a JS string field that
may be absent/empty is modelled as a Lean `String` where `""` is the falsy
case (JS `undefined`/`null`/`""` are all falsy and indistinguishable in every
use these functions make of them); a JS boolean field that may be absent is
modelled as `Option Bool` (`x === true` becomes `x = some true`); console
output and `Date.now()` are made explicit (an output flag, an input
parameter); the global mutable arrays/objects (`dynamicMenus`, `taskState`,
`activityLogs`) are passed and returned explicitly.
-/

namespace Dashboard

/-- One document of the Firestore `menus` collection as held in the
`dynamicMenus` array: `id` is the Firestore document id (stable), `slug` the
user-editable URL segment (`""` models a missing slug), `type` is
`"task-list"` or `"external-link"`. -/
structure MenuEntry where
  id : String
  slug : String
  name : String
  icon : String
  order : Nat
  type : String
deriving DecidableEq, Repr

/-- Models JavaScript `String.prototype.toLowerCase` character-wise, on the
character ranges that occur in this codebase: ASCII `A`-`Z`, the Latin-1
Supplement uppercase letters (U+00C0-U+00DE except the multiplication sign
U+00D7, covering À, Ã, ...), Đ (U+0110), and the Latin Extended Additional
block (U+1E00-U+1EFF, the remaining precomposed Vietnamese letters, where the
uppercase letter is the even code point and its lowercase is the next code
point). Any other character is returned unchanged. -/
def jsCharToLower (c : Char) : Char :=
  if 'A' ≤ c ∧ c ≤ 'Z' then Char.ofNat (c.toNat + 32)
  else if 0xC0 ≤ c.toNat ∧ c.toNat ≤ 0xDE ∧ c.toNat ≠ 0xD7 then Char.ofNat (c.toNat + 32)
  else if c.toNat = 0x110 then Char.ofNat 0x111
  else if 0x1E00 ≤ c.toNat ∧ c.toNat ≤ 0x1EFF ∧ c.toNat % 2 = 0 then Char.ofNat (c.toNat + 1)
  else c

/-- Models JavaScript `String.prototype.toLowerCase` (restricted as in
`jsCharToLower`). -/
def jsToLower (s : String) : String :=
  String.mk (s.data.map jsCharToLower)

/-- The whitespace characters JavaScript `trim` removes, restricted to the
ASCII whitespace that can occur in the repository's status strings. -/
def isJsWhitespace (c : Char) : Bool :=
  c = ' ' ∨ c = '\t' ∨ c = '\n' ∨ c = '\r'

/-- Models JavaScript `String.prototype.trim` (both ends, `isJsWhitespace`). -/
def jsTrim (s : String) : String :=
  String.mk (((s.data.dropWhile isJsWhitespace).reverse.dropWhile isJsWhitespace).reverse)

/-- Modelled from the spec: `normalizeRoutePath` is called by the router's
`resolve` (IMPLEMENTATION_NOTES.md, index.html:4405-4447) but its body is not
among the sources; the spec (§4.2 step 1) fixes normalization as "strip
trailing slash, lower-case". This strips one trailing slash (keeping a bare
`"/"` intact). -/
def stripTrailingSlash (p : String) : String :=
  if p.data.length > 1 ∧ p.data.getLast? = some '/' then String.mk p.data.dropLast else p

/-- Modelled from the spec (§4.2 step 1): normalize = strip trailing slash,
then lower-case. The source body is not in the repository snapshot. -/
def normalizeRoutePath (p : String) : String :=
  jsToLower (stripTrailingSlash p)

/-- Models JavaScript `normalized.slice(1)` (drop the leading `/`). -/
def dropFirstChar (s : String) : String :=
  String.mk (s.data.drop 1)

/-- The route value attached to a resolved path: either one of the static
route objects of the router's `config` table (kept opaque, identified by its
key), or the dynamic-menu route object
`\x7b layout: 'app', section: 'dynamic-menu', menuId, menuName \x7d` built by
`resolve`. Note the dynamic route carries only the menu's id and name — no
slug field exists in it. -/
inductive RouteTarget where
  | staticTarget (key : String)
  | dynamicTarget (menuId : String) (menuName : String)
deriving DecidableEq, Repr

/-- The value returned by `resolve`: `path`, `route`, and the `notFound` tag
(absent in JS on the first two return sites, i.e. falsy, modelled `false`). -/
structure Resolved where
  path : String
  route : RouteTarget
  notFound : Bool
deriving DecidableEq, Repr

/-- The arrow predicate of `resolve`'s dynamic lookup
(IMPLEMENTATION_NOTES.md, index.html:4405-4447):
`m.type === 'task-list' && (m.slug === pathWithoutSlash || 'dynamic-menu/' + m.id === pathWithoutSlash)`. -/
def routeMatchPred (pathWithoutSlash : String) (m : MenuEntry) : Bool :=
  m.type == "task-list" &&
    (m.slug == pathWithoutSlash || ("dynamic-menu/" ++ m.id) == pathWithoutSlash)

/-- `createRouter().resolve` (IMPLEMENTATION_NOTES.md, index.html:4405-4447).
`config` is the router's static route table (its literal is not in the
sources; it is passed as the list of its keys — `config[normalized]` truthy
iff the normalized path is a key), `defaultRoute` is the route the 404 branch
falls back to, `dynamicMenus` the current menu directory. -/
def resolve (config : List String) (defaultRoute : RouteTarget)
    (dynamicMenus : List MenuEntry) (pathname : String) : Resolved :=
  if normalizeRoutePath pathname ∈ config then
    { path := normalizeRoutePath pathname
      route := RouteTarget.staticTarget (normalizeRoutePath pathname)
      notFound := false }
  else
    match dynamicMenus.find? (routeMatchPred (dropFirstChar (normalizeRoutePath pathname))) with
    | some dynamicMenu =>
      { path := normalizeRoutePath pathname
        route := RouteTarget.dynamicTarget dynamicMenu.id dynamicMenu.name
        notFound := false }
    | none => { path := "/", route := defaultRoute, notFound := true }

/-- The observable result of `getMenuPath`: the returned path string, plus an
explicit flag for the `console.warn('⚠️ [MENU PATH] Menu not found')` effect
the not-found branch emits (the JS function's return value is the path string
alone). -/
structure MenuPathResult where
  path : String
  warned : Bool
deriving DecidableEq, Repr

/-- `getMenuPath` (SINGLE_SOURCE_OF_TRUTH_ARCHITECTURE.md,
index.html:1720-1734): find the menu by id in the current `dynamicMenus`;
if absent, warn and return `'/tongquan'`; else return
`'/' + (menu.slug || 'dynamic-menu/' + menuId)`. -/
def getMenuPath (dynamicMenus : List MenuEntry) (menuId : String) : MenuPathResult :=
  match dynamicMenus.find? (fun m => m.id == menuId) with
  | none => { path := "/tongquan", warned := true }
  | some menu =>
    { path := "/" ++ (if menu.slug ≠ "" then menu.slug else "dynamic-menu/" ++ menuId)
      warned := false }

/-- The `onSnapshot` handler body of `loadDynamicMenus`
(IMPLEMENTATION_NOTES.md, index.html:5442-5481): `dynamicMenus = [];
snapshot.forEach(doc => dynamicMenus.push(...))` — the old array value is
discarded wholesale and replaced by the snapshot's documents. -/
def loadDynamicMenusRefresh (snapshot : List MenuEntry)
    (_oldDynamicMenus : List MenuEntry) : List MenuEntry :=
  snapshot.foldl (fun acc doc => acc ++ [doc]) []

/-- `renderSidebarDynamic` (IMPLEMENTATION_NOTES.md, index.html:6063-6093):
builds the sidebar HTML string from `dynamicMenus` alone — a fixed overview
link followed by one link per `task-list` menu, using the current slug (or
the `/dynamic-menu/id` fallback when the slug is falsy). -/
def renderSidebarDynamic (dynamicMenus : List MenuEntry) : String :=
  dynamicMenus.foldl
    (fun html menu =>
      if menu.type = "task-list" then
        html ++ "<a class=\"nav-link\" href=\"" ++
          (if menu.slug ≠ "" then "/" ++ menu.slug else "/dynamic-menu/" ++ menu.id) ++
          "\">" ++ menu.icon ++ " " ++ menu.name ++ "</a>"
      else html)
    "<a class=\"nav-link\" href=\"/tongquan\">📊 Tổng Quan</a>"

/-- One activity-log row as built by `recordActivityEntry`
(SINGLE_SOURCE_OF_TRUTH_ARCHITECTURE.md, index.html:2419-2434). The fields
are exactly the nine the constructor writes; there is no slug field and no
path field. `menuId` is `Option` because the JS stores `menuId || null`. -/
structure ActivityEntry where
  id : String
  taskId : String
  taskName : String
  phase : String
  status : String
  completedAt : String
  updatedAt : String
  performedBy : String
  menuId : Option String
deriving DecidableEq, Repr

/-- `recordActivityEntry` (SINGLE_SOURCE_OF_TRUTH_ARCHITECTURE.md,
index.html:2419-2434). `now` is the `Date.now()` reading made explicit;
`activityLogs` is the global array, returned updated
(`activityLogs = [entry, ...activityLogs]`). All four task-action handlers
(complete, comment, edit-link, delete-result) call this with the menu's
`menuId`. -/
def recordActivityEntry (now : Nat)
    (taskId taskName phase status timestamp completedAt performedBy menuId : String)
    (activityLogs : List ActivityEntry) : List ActivityEntry :=
  let entry : ActivityEntry :=
    { id := taskId ++ "-" ++ toString now
      taskId := taskId
      taskName := taskName
      phase := phase
      status := status
      completedAt := completedAt
      updatedAt := timestamp
      performedBy := performedBy
      menuId := if menuId ≠ "" then some menuId else none }
  entry :: activityLogs

/-- One comment object of a task-state entry (`content`, `user`,
`timestamp` per the Firestore schema). -/
structure Comment where
  content : String
  user : String
  timestamp : String
deriving DecidableEq, Repr

/-- One entry of the global `taskState` object
(`taskState[taskId] = \x7b completed, link, completedAt, updatedAt,
comments, status \x7d`, Firestore `projects/../taskState`). Absent boolean
fields are `none`; absent string fields are `""` (falsy); absent timestamp
strings are `none` (to keep `null` distinguishable where the code writes it
explicitly). The defaults give the empty object `\x7b\x7d`. -/
structure TaskState where
  completed : Option Bool := none
  link : String := ""
  completedAt : Option String := none
  updatedAt : Option String := none
  status : String := ""
  comments : List Comment := []
deriving DecidableEq, Repr

/-- One task document as read by `TaskItem.js` (only the fields
`isTaskCompleted` inspects): the optional booleans `isCompleted` and
`completed`, the `status` string and the `completionLink` string. -/
structure Task where
  isCompleted : Option Bool := none
  completed : Option Bool := none
  status : String := ""
  completionLink : String := ""
deriving DecidableEq, Repr

/-- `normalizeStatus` (TaskItem.js:16-18):
`status ? status.toLowerCase().trim() : ''`. -/
def normalizeStatus (status : String) : String :=
  if status ≠ "" then jsTrim (jsToLower status) else ""

/-- The `completedVariations` list of `isTaskCompleted` (TaskItem.js:58-64
and 76-82, identical at both sites). -/
def completedVariations : List String :=
  ["completed", "hoàn thành", "đã hoàn thành", "done", "xong"]

/-- `isTaskCompleted` (TaskItem.js:29-97): the primary `taskState.completed`
flag, then the `task.isCompleted` / `task.completed` fallbacks, then the
status-string variations on `task.status` and `taskState.status`, then the
completion-link fallback; `false` only when no indicator fires. -/
def isTaskCompleted (task : Task) (taskState : TaskState) : Bool :=
  if taskState.completed = some true then true
  else if task.isCompleted = some true then true
  else if task.completed = some true then true
  else if task.status ≠ "" ∧ normalizeStatus task.status ∈ completedVariations then true
  else if taskState.status ≠ "" ∧ normalizeStatus taskState.status ∈ completedVariations then true
  else if task.completionLink ≠ "" ∨ taskState.link ≠ "" then true
  else false

/-- `handleTaskEdit` (IMPLEMENTATION_NOTES.md, TaskList.js handlers):
reopens a completed task. `taskState` is the global map (taskId to entry),
modelled as a function into `Option TaskState`; `nowIso` is the
`new Date().toISOString()` reading made explicit. The handler creates the
entry if absent (`taskState[taskId] = \x7b\x7d`), then assigns exactly
`completed = false`, `completedAt = null`, `updatedAt = nowIso` on it. -/
def handleTaskEdit (nowIso : String) (taskId : String)
    (taskState : String → Option TaskState) : String → Option TaskState :=
  let st := (taskState taskId).getD {}
  let st2 := { st with completed := some false, completedAt := none, updatedAt := some nowIso }
  fun k => if k = taskId then some st2 else taskState k

/-! Helper lemmas shared by the claim theorems. -/

/-- `List.find?` returns the element when it is a member, satisfies the
predicate, and is the only member doing so. -/
theorem find?_eq_some_of_unique {α : Type} (l : List α) (p : α → Bool) (a : α)
    (hmem : a ∈ l) (hpa : p a = true)
    (huniq : ∀ b, b ∈ l → p b = true → b = a) :
    l.find? p = some a := by
  induction l with
  | nil => cases hmem
  | cons x xs ih =>
    cases hx : p x with
    | true =>
      have hxa : x = a := huniq x (List.mem_cons_self x xs) hx
      rw [List.find?_cons_of_pos _ hx, hxa]
    | false =>
      rw [List.find?_cons_of_neg _ (by simp [hx])]
      apply ih
      · rcases List.mem_cons.mp hmem with h | h
        · subst h; rw [hpa] at hx; cases hx
        · exact h
      · exact fun b hb hpb => huniq b (List.mem_cons_of_mem _ hb) hpb

/-- Folding push-to-array over a list appends the list to the accumulator. -/
theorem foldl_push_eq_append {α : Type} (l acc : List α) :
    l.foldl (fun a d => a ++ [d]) acc = acc ++ l := by
  induction l generalizing acc with
  | nil => simp
  | cons x xs ih => simp [List.foldl_cons, ih]

/-- `slice(1)` undoes prepending the leading slash. -/
theorem dropFirstChar_slash_append (s : String) : dropFirstChar ("/" ++ s) = s := by
  unfold dropFirstChar
  have h : ("/" ++ s).data = '/' :: s.data := rfl
  rw [h]
  rfl

/-- A status string whose normalization is one of the completed variations is
itself truthy (nonempty). -/
theorem status_mem_ne_empty (s : String)
    (h : normalizeStatus s ∈ completedVariations) : s ≠ "" := by
  intro hs
  rw [hs] at h
  revert h
  decide

/-! Claim theorems. -/

/-- C2: for every path whose normalization is a key of the static route
table, `resolve` returns the static outcome for that key — for every state of
the menu directory, in particular when a menu entry's slug collides with the
reserved name; the static check precedes the dynamic lookup. -/
theorem resolve_static_precedence (config : List String) (defaultRoute : RouteTarget)
    (dynamicMenus : List MenuEntry) (pathname : String)
    (hstatic : normalizeRoutePath pathname ∈ config) :
    resolve config defaultRoute dynamicMenus pathname =
      { path := normalizeRoutePath pathname
        route := RouteTarget.staticTarget (normalizeRoutePath pathname)
        notFound := false } := by
  unfold resolve
  rw [if_pos hstatic]

/-- C2 witness: `/tongquan` resolves statically even though a task-list menu
entry carries the colliding slug `tongquan`. -/
theorem resolve_static_precedence_witness :
    resolve ["/tongquan", "/login", "/ghichu"] (RouteTarget.staticTarget ("/"))
        [⟨"m1", "tongquan", "Tổng Quan Giả", "📋", 1, "task-list"⟩] "/tongquan" =
      { path := "/tongquan"
        route := RouteTarget.staticTarget ("/tongquan")
        notFound := false } := by
  have h := resolve_static_precedence ["/tongquan", "/login", "/ghichu"]
    (RouteTarget.staticTarget ("/"))
    [⟨"m1", "tongquan", "Tổng Quan Giả", "📋", 1, "task-list"⟩] "/tongquan" (by decide)
  rw [h]
  decide

/-- C3: a task-list menu entry whose slug is in normal form, does not collide
with a static route, and is the directory's unique dynamic match, resolves to
the dynamic outcome carrying exactly its `menuId` and `name` — the
`dynamicTarget` constructor has no slug field, so no slug is cached in the
outcome. -/
theorem resolve_task_list_slug_dynamic (config : List String) (defaultRoute : RouteTarget)
    (dynamicMenus : List MenuEntry) (m : MenuEntry)
    (hmem : m ∈ dynamicMenus) (htype : m.type = "task-list")
    (hnorm : normalizeRoutePath ("/" ++ m.slug) = "/" ++ m.slug)
    (hstatic : ("/" ++ m.slug) ∉ config)
    (huniq : ∀ m' ∈ dynamicMenus, m'.type = "task-list" →
      (m'.slug = m.slug ∨ "dynamic-menu/" ++ m'.id = m.slug) → m' = m) :
    resolve config defaultRoute dynamicMenus ("/" ++ m.slug) =
      { path := "/" ++ m.slug
        route := RouteTarget.dynamicTarget m.id m.name
        notFound := false } := by
  unfold resolve
  rw [hnorm, if_neg hstatic, dropFirstChar_slash_append]
  have hfind : dynamicMenus.find? (routeMatchPred m.slug) = some m := by
    apply find?_eq_some_of_unique _ _ _ hmem
    · simp [routeMatchPred, htype]
    · intro b hb hpb
      simp only [routeMatchPred, Bool.and_eq_true, Bool.or_eq_true, beq_iff_eq] at hpb
      exact huniq b hb hpb.1 hpb.2
  rw [hfind]

/-- C3 witness: the task-list entry with slug `giaidoan1` resolves `/giaidoan1`
to the dynamic outcome with its id and name. -/
theorem resolve_task_list_slug_dynamic_witness :
    resolve ["/tongquan"] (RouteTarget.staticTarget ("/"))
        [⟨"m1", "giaidoan1", "Giai Đoạn 1", "📋", 1, "task-list"⟩] ("/" ++ "giaidoan1") =
      { path := "/" ++ "giaidoan1"
        route := RouteTarget.dynamicTarget ("m1") ("Giai Đoạn 1")
        notFound := false } := by
  have h := resolve_task_list_slug_dynamic ["/tongquan"] (RouteTarget.staticTarget ("/"))
    [⟨"m1", "giaidoan1", "Giai Đoạn 1", "📋", 1, "task-list"⟩]
    ⟨"m1", "giaidoan1", "Giai Đoạn 1", "📋", 1, "task-list"⟩
    (by decide) (by decide) (by decide) (by decide) (by decide)
  rw [h]

/-- C4: whenever `resolve` produces a dynamic outcome (and not the not-found
fallback), that outcome's id and name come from a directory entry of type
`task-list`; entries of any other type — external links in particular — are
never the source of a dynamic route outcome, because the lookup predicate
requires `type === 'task-list'` before comparing slugs. -/
theorem resolve_dynamic_outcome_is_task_list (config : List String)
    (defaultRoute : RouteTarget) (dynamicMenus : List MenuEntry) (pathname : String)
    (i n : String)
    (hroute : (resolve config defaultRoute dynamicMenus pathname).route =
      RouteTarget.dynamicTarget i n)
    (hnf : (resolve config defaultRoute dynamicMenus pathname).notFound = false) :
    ∃ m, m ∈ dynamicMenus ∧ m.type = "task-list" ∧ m.id = i ∧ m.name = n := by
  unfold resolve at hroute hnf
  by_cases hs : normalizeRoutePath pathname ∈ config
  · rw [if_pos hs] at hroute
    simp at hroute
  · rw [if_neg hs] at hroute hnf
    cases hfind : dynamicMenus.find?
        (routeMatchPred (dropFirstChar (normalizeRoutePath pathname))) with
    | none =>
      rw [hfind] at hnf
      simp at hnf
    | some m =>
      rw [hfind] at hroute
      simp only [RouteTarget.dynamicTarget.injEq] at hroute
      have hmem := List.mem_of_find?_eq_some hfind
      have hp := List.find?_some hfind
      simp only [routeMatchPred, Bool.and_eq_true, beq_iff_eq] at hp
      exact ⟨m, hmem, hp.1, hroute.1, hroute.2⟩

/-- C4 witness: with an external-link entry and a task-list entry sharing the
slug `x`, the dynamic outcome for `/x` is certified to come from a task-list
entry. -/
theorem resolve_dynamic_outcome_is_task_list_witness :
    ∃ m, m ∈ [(⟨"e1", "x", "Liên Kết", "🌐", 1, "external-link"⟩ : MenuEntry),
              ⟨"m1", "x", "Mục Lục", "📋", 2, "task-list"⟩] ∧
      m.type = "task-list" ∧ m.id = "m1" ∧ m.name = "Mục Lục" :=
  resolve_dynamic_outcome_is_task_list [] (RouteTarget.staticTarget ("/"))
    [⟨"e1", "x", "Liên Kết", "🌐", 1, "external-link"⟩,
     ⟨"m1", "x", "Mục Lục", "📋", 2, "task-list"⟩] "/x" "m1" "Mục Lục"
    (by decide) (by decide)

/-- C5: `resolve` is a total function into the tagged `Resolved` type — the
source has no throw and every branch returns — and when neither the static
table nor any task-list slug matches, it returns the default home route
tagged `notFound := true` rather than an error. -/
theorem resolve_not_found_default (config : List String) (defaultRoute : RouteTarget)
    (dynamicMenus : List MenuEntry) (pathname : String)
    (hstatic : normalizeRoutePath pathname ∉ config)
    (hdyn : ∀ m ∈ dynamicMenus, ¬(m.type = "task-list" ∧
      (m.slug = dropFirstChar (normalizeRoutePath pathname) ∨
        "dynamic-menu/" ++ m.id = dropFirstChar (normalizeRoutePath pathname)))) :
    resolve config defaultRoute dynamicMenus pathname =
      { path := "/", route := defaultRoute, notFound := true } := by
  unfold resolve
  rw [if_neg hstatic]
  have hfind : dynamicMenus.find?
      (routeMatchPred (dropFirstChar (normalizeRoutePath pathname))) = none := by
    rw [List.find?_eq_none]
    intro m hm
    have hnm := hdyn m hm
    simp only [routeMatchPred, Bool.and_eq_true, Bool.or_eq_true, beq_iff_eq]
    tauto
  rw [hfind]

/-- C5 witness: an unknown path resolves to the default home route tagged
not-found, with a populated directory and static table present. -/
theorem resolve_not_found_default_witness :
    resolve ["/tongquan", "/login"] (RouteTarget.staticTarget ("/"))
        [⟨"m1", "giaidoan1", "Giai Đoạn 1", "📋", 1, "task-list"⟩,
         ⟨"e1", "web", "Trang Web", "🌐", 2, "external-link"⟩] "/khong-ton-tai" =
      { path := "/", route := RouteTarget.staticTarget ("/"), notFound := true } :=
  resolve_not_found_default ["/tongquan", "/login"] (RouteTarget.staticTarget ("/"))
    [⟨"m1", "giaidoan1", "Giai Đoạn 1", "📋", 1, "task-list"⟩,
     ⟨"e1", "web", "Trang Web", "🌐", 2, "external-link"⟩] "/khong-ton-tai"
    (by decide) (by decide)

/-- C1 counterexample: the claim as stated — `getMenuPath(m.id)` returns `/`
followed by m's current slug for every entry m in the directory — fails for
an entry whose slug is empty (falsy): the code's `menu.slug ||
'dynamic-menu/' + menuId` fallback produces `/dynamic-menu/m1`, which is not
`'/' + slug`. -/
theorem getMenuPath_empty_slug_counterexample :
    (⟨"m1", "", "Kế Hoạch", "📋", 1, "task-list"⟩ : MenuEntry) ∈
        [(⟨"m1", "", "Kế Hoạch", "📋", 1, "task-list"⟩ : MenuEntry)] ∧
    (getMenuPath [⟨"m1", "", "Kế Hoạch", "📋", 1, "task-list"⟩] "m1").path =
      "/dynamic-menu/m1" ∧
    (getMenuPath [⟨"m1", "", "Kế Hoạch", "📋", 1, "task-list"⟩] "m1").path ≠
      "/" ++ (⟨"m1", "", "Kế Hoạch", "📋", 1, "task-list"⟩ : MenuEntry).slug := by
  decide

/-- C1 (amended): for every entry m of the directory whose id is unique in it
and whose slug is truthy (nonempty), `getMenuPath(m.id)` — the resolution
`navigateToTask` performs — returns `/` followed by m's current slug, reading
the directory live; for an empty slug it returns `/dynamic-menu/` + id
instead. Since the directory is an argument, two resolutions of the same
record around a slug rename return the old and then the new slug (the
witness shows `/a` then `/b`). -/
theorem getMenuPath_returns_current_slug (dynamicMenus : List MenuEntry) (m : MenuEntry)
    (hmem : m ∈ dynamicMenus)
    (huniq : ∀ m' ∈ dynamicMenus, m'.id = m.id → m' = m)
    (hslug : m.slug ≠ "") :
    getMenuPath dynamicMenus m.id = { path := "/" ++ m.slug, warned := false } := by
  unfold getMenuPath
  have hfind : dynamicMenus.find? (fun x => x.id == m.id) = some m := by
    apply find?_eq_some_of_unique _ _ _ hmem
    · simp
    · intro b hb hpb
      exact huniq b hb (by simpa using hpb)
  rw [hfind]
  simp [hslug]

/-- C1 witness (live rename): the same record's menuId `m1` resolves to `/a`
while the directory holds slug `a`, and to `/b` after the refresh delivering
slug `b`. -/
theorem getMenuPath_returns_current_slug_witness :
    getMenuPath [⟨"m1", "a", "Giai Đoạn 1", "📋", 1, "task-list"⟩]
        (MenuEntry.id ⟨"m1", "a", "Giai Đoạn 1", "📋", 1, "task-list"⟩) =
      { path := "/" ++ "a", warned := false } ∧
    getMenuPath [⟨"m1", "b", "Giai Đoạn 1", "📋", 1, "task-list"⟩]
        (MenuEntry.id ⟨"m1", "b", "Giai Đoạn 1", "📋", 1, "task-list"⟩) =
      { path := "/" ++ "b", warned := false } :=
  ⟨getMenuPath_returns_current_slug [⟨"m1", "a", "Giai Đoạn 1", "📋", 1, "task-list"⟩]
      ⟨"m1", "a", "Giai Đoạn 1", "📋", 1, "task-list"⟩ (by decide) (by decide) (by decide),
   getMenuPath_returns_current_slug [⟨"m1", "b", "Giai Đoạn 1", "📋", 1, "task-list"⟩]
      ⟨"m1", "b", "Giai Đoạn 1", "📋", 1, "task-list"⟩ (by decide) (by decide) (by decide)⟩

/-- C6 counterexample: the claim says resolution of a deleted menuId "signals
a target-no-longer-exists condition to the caller". The JS return value of
`getMenuPath` is the path string alone (the warning goes to the console, not
to the caller, and `navigateToTask` neither receives nor forwards any flag):
concretely, the path returned for a deleted id is identical to the path
returned for an existing menu whose slug is `tongquan`, so the value the
caller receives carries no deletion signal at all. -/
theorem getMenuPath_no_caller_signal_counterexample :
    ([] : List MenuEntry).find? (fun m => m.id == "deleted") = none ∧
    [(⟨"m9", "tongquan", "Tổng Quan Giả", "📊", 1, "task-list"⟩ : MenuEntry)].find?
        (fun m => m.id == "m9") =
      some ⟨"m9", "tongquan", "Tổng Quan Giả", "📊", 1, "task-list"⟩ ∧
    (getMenuPath [] "deleted").path =
      (getMenuPath [⟨"m9", "tongquan", "Tổng Quan Giả", "📊", 1, "task-list"⟩] "m9").path := by
  decide

/-- C6 (amended): when the menuId is absent from the current directory,
`getMenuPath` returns the fallback static path `/tongquan` and emits a
console warning (modelled by the `warned` flag) — it never throws, being a
total function into `MenuPathResult` — but the condition is not part of the
value returned to the caller, which is the path string alone. -/
theorem getMenuPath_deleted_menu_fallback (dynamicMenus : List MenuEntry) (menuId : String)
    (habs : ∀ m ∈ dynamicMenus, m.id ≠ menuId) :
    getMenuPath dynamicMenus menuId = { path := "/tongquan", warned := true } := by
  unfold getMenuPath
  have hfind : dynamicMenus.find? (fun m => m.id == menuId) = none := by
    rw [List.find?_eq_none]
    intro m hm
    simpa using habs m hm
  rw [hfind]

/-- C6 witness: a deleted id falls back to `/tongquan` with the warning, both
in an empty directory and in a populated one missing the id. -/
theorem getMenuPath_deleted_menu_fallback_witness :
    getMenuPath [] "xoa-roi" = { path := "/tongquan", warned := true } ∧
    getMenuPath [⟨"m1", "giaidoan1", "Giai Đoạn 1", "📋", 1, "task-list"⟩] "xoa-roi" =
      { path := "/tongquan", warned := true } :=
  ⟨getMenuPath_deleted_menu_fallback [] "xoa-roi" (by decide),
   getMenuPath_deleted_menu_fallback
     [⟨"m1", "giaidoan1", "Giai Đoạn 1", "📋", 1, "task-list"⟩] "xoa-roi" (by decide)⟩

/-- C7: the `onSnapshot` refresh replaces the directory wholesale with the
snapshot's content, so a second refresh delivering identical content leaves
the directory equal; `renderSidebarDynamic` is a pure function of the
directory alone, so the second re-render produces a byte-identical sidebar
HTML string, and `resolve` of the current path is unchanged. -/
theorem refresh_idempotent_render (prev snapshot : List MenuEntry)
    (config : List String) (defaultRoute : RouteTarget) (pathname : String) :
    loadDynamicMenusRefresh snapshot prev = snapshot ∧
    renderSidebarDynamic
        (loadDynamicMenusRefresh snapshot (loadDynamicMenusRefresh snapshot prev)) =
      renderSidebarDynamic (loadDynamicMenusRefresh snapshot prev) ∧
    resolve config defaultRoute
        (loadDynamicMenusRefresh snapshot (loadDynamicMenusRefresh snapshot prev)) pathname =
      resolve config defaultRoute (loadDynamicMenusRefresh snapshot prev) pathname := by
  have h : ∀ old, loadDynamicMenusRefresh snapshot old = snapshot := by
    intro old
    unfold loadDynamicMenusRefresh
    simpa using foldl_push_eq_append snapshot []
  refine ⟨h prev, ?_, ?_⟩ <;> rw [h, h]

/-- C8: `recordActivityEntry` prepends to the activity log exactly one entry
whose nine fields are the listed inputs — its durable section reference is
`menuId := some menuId` (the menu's immutable id), and `ActivityEntry` has no
slug field and no path field, so no slug or path string is ever stored; all
four task-action call sites (complete, comment, edit-link, delete-result)
pass the menu's `menuId`. -/
theorem recordActivityEntry_carries_menuId (now : Nat)
    (taskId taskName phase status timestamp completedAt performedBy menuId : String)
    (activityLogs : List ActivityEntry) (hmenu : menuId ≠ "") :
    recordActivityEntry now taskId taskName phase status timestamp completedAt
        performedBy menuId activityLogs =
      { id := taskId ++ "-" ++ toString now
        taskId := taskId
        taskName := taskName
        phase := phase
        status := status
        completedAt := completedAt
        updatedAt := timestamp
        performedBy := performedBy
        menuId := some menuId } :: activityLogs := by
  unfold recordActivityEntry
  rw [if_pos hmenu]

/-- C8 witness: completing a task records an entry carrying
`menuId = some ("xyz789")` at the head of the log. -/
theorem recordActivityEntry_carries_menuId_witness :
    recordActivityEntry 1736640000000 ("dynamic-abc123") ("Setup Database") ("Giai Đoạn 1")
        ("completed") ("t1") ("t1") ("Vincent") ("xyz789") [] =
      [{ id := "dynamic-abc123" ++ "-" ++ toString 1736640000000
         taskId := "dynamic-abc123"
         taskName := "Setup Database"
         phase := "Giai Đoạn 1"
         status := "completed"
         completedAt := "t1"
         updatedAt := "t1"
         performedBy := "Vincent"
         menuId := some ("xyz789") }] :=
  recordActivityEntry_carries_menuId 1736640000000 ("dynamic-abc123") ("Setup Database")
    ("Giai Đoạn 1") ("completed") ("t1") ("t1") ("Vincent") ("xyz789") [] (by decide)

/-- C9: (1) `isTaskCompleted` returns `true` whenever `task.completionLink`
or `taskState.link` is truthy — unconditionally, hence in particular when
every completed boolean flag is false or absent and no status string matches;
(2) with the boolean flags off and the links absent, it returns `true`
exactly when the `normalizeStatus` image (lower-cased and trimmed) of
`task.status` or of `taskState.status` is one of the variants
`completed`, `hoàn thành`, `đã hoàn thành`, `done`, `xong`
(`completedVariations`). -/
theorem isTaskCompleted_link_and_status :
    (∀ (task : Task) (taskState : TaskState),
      task.completionLink ≠ "" ∨ taskState.link ≠ "" →
      isTaskCompleted task taskState = true) ∧
    (∀ (task : Task) (taskState : TaskState),
      task.isCompleted ≠ some true → task.completed ≠ some true →
      taskState.completed ≠ some true →
      task.completionLink = "" → taskState.link = "" →
      (isTaskCompleted task taskState = true ↔
        normalizeStatus task.status ∈ completedVariations ∨
        normalizeStatus taskState.status ∈ completedVariations)) := by
  constructor
  · intro task taskState h
    unfold isTaskCompleted
    split_ifs <;> simp_all
  · intro task taskState h1 h2 h3 h4 h5
    unfold isTaskCompleted
    rw [if_neg h3, if_neg h1, if_neg h2]
    by_cases cA : task.status ≠ "" ∧ normalizeStatus task.status ∈ completedVariations
    · rw [if_pos cA]
      simp [cA.2]
    · rw [if_neg cA]
      by_cases cB : taskState.status ≠ "" ∧
          normalizeStatus taskState.status ∈ completedVariations
      · rw [if_pos cB]
        simp [cB.2]
      · rw [if_neg cB, if_neg (by rw [h4, h5]; simp)]
        have hA : normalizeStatus task.status ∉ completedVariations := fun hmem =>
          cA ⟨status_mem_ne_empty _ hmem, hmem⟩
        have hB : normalizeStatus taskState.status ∉ completedVariations := fun hmem =>
          cB ⟨status_mem_ne_empty _ hmem, hmem⟩
        simp [hA, hB]

/-- C9 witness: a saved completion link alone marks the task completed; the
status string `"ĐÃ HOÀN THÀNH "` (upper case, trailing space) matches after
normalization; `"pending"` does not. -/
theorem isTaskCompleted_link_and_status_witness :
    isTaskCompleted {} { link := "https://drive.google.com/file" } = true ∧
    isTaskCompleted { status := "ĐÃ HOÀN THÀNH " } {} = true ∧
    isTaskCompleted { status := "pending" } {} = false := by
  refine ⟨?_, ?_, ?_⟩
  · exact isTaskCompleted_link_and_status.1 _ _ (Or.inr (by decide))
  · exact (isTaskCompleted_link_and_status.2 _ _ (by decide) (by decide) (by decide)
      (by decide) (by decide)).mpr (Or.inl (by decide))
  · have h := isTaskCompleted_link_and_status.2 { status := "pending" } {}
      (by decide) (by decide) (by decide) (by decide) (by decide)
    cases hb : isTaskCompleted { status := "pending" } {} with
    | false => rfl
    | true => exact absurd (h.mp hb) (by decide)

/-- C10: reopening via `handleTaskEdit` updates the `taskId` entry to exactly
the old entry with `completed := false`, `completedAt := null` and a fresh
`updatedAt` — every other field of the entry, in particular the saved
completion `link` and the `comments` array, survives — and every other key of
`taskState` is untouched. -/
theorem handleTaskEdit_frame (nowIso taskId : String)
    (taskState : String → Option TaskState) (s0 : TaskState)
    (hexists : taskState taskId = some s0) :
    handleTaskEdit nowIso taskId taskState taskId =
      some { s0 with completed := some false, completedAt := none,
                     updatedAt := some nowIso } ∧
    (∀ k, k ≠ taskId → handleTaskEdit nowIso taskId taskState k = taskState k) ∧
    ∃ s1, handleTaskEdit nowIso taskId taskState taskId = some s1 ∧
      s1.completed = some false ∧ s1.completedAt = none ∧
      s1.updatedAt = some nowIso ∧ s1.link = s0.link ∧
      s1.comments = s0.comments ∧ s1.status = s0.status := by
  have hket : ∀ k, handleTaskEdit nowIso taskId taskState k =
      if k = taskId then
        some (TaskState.mk (some false) ((taskState taskId).getD {}).link none
          (some nowIso) ((taskState taskId).getD {}).status
          ((taskState taskId).getD {}).comments)
      else taskState k := fun k => rfl
  refine ⟨?_, ?_, ?_⟩
  · rw [hket, if_pos rfl, hexists]
    rfl
  · intro k hk
    rw [hket, if_neg hk]
  · exact ⟨TaskState.mk (some false) s0.link none (some nowIso) s0.status s0.comments,
      by rw [hket, if_pos rfl, hexists]; rfl, rfl, rfl, rfl, rfl, rfl, rfl⟩

/-- C10 witness: reopening task `1.1` flips its completed flag and clears
`completedAt` while its completion link and its comment survive, and leaves
the entry of task `2.2` untouched. -/
theorem handleTaskEdit_frame_witness :
    handleTaskEdit ("2025-01-12T10:30:00.000Z") ("1.1")
        (fun k => if k = "1.1" then
          some { completed := some true, link := "https://drive.google.com/file"
                 completedAt := some ("2025-01-10T08:00:00.000Z")
                 updatedAt := some ("2025-01-10T08:00:00.000Z")
                 comments := [⟨"đã xong", "Vincent", "2025-01-10T09:00:00.000Z"⟩] }
         else none) "1.1" =
      some { completed := some false, link := "https://drive.google.com/file"
             completedAt := none, updatedAt := some ("2025-01-12T10:30:00.000Z")
             comments := [⟨"đã xong", "Vincent", "2025-01-10T09:00:00.000Z"⟩] } ∧
    handleTaskEdit ("2025-01-12T10:30:00.000Z") ("1.1")
        (fun k => if k = "1.1" then
          some { completed := some true, link := "https://drive.google.com/file"
                 completedAt := some ("2025-01-10T08:00:00.000Z")
                 updatedAt := some ("2025-01-10T08:00:00.000Z")
                 comments := [⟨"đã xong", "Vincent", "2025-01-10T09:00:00.000Z"⟩] }
         else none) "2.2" = none := by
  have h := handleTaskEdit_frame ("2025-01-12T10:30:00.000Z") ("1.1")
    (fun k => if k = "1.1" then
      some { completed := some true, link := "https://drive.google.com/file"
             completedAt := some ("2025-01-10T08:00:00.000Z")
             updatedAt := some ("2025-01-10T08:00:00.000Z")
             comments := [⟨"đã xong", "Vincent", "2025-01-10T09:00:00.000Z"⟩] }
     else none)
    { completed := some true, link := "https://drive.google.com/file"
      completedAt := some ("2025-01-10T08:00:00.000Z")
      updatedAt := some ("2025-01-10T08:00:00.000Z")
      comments := [⟨"đã xong", "Vincent", "2025-01-10T09:00:00.000Z"⟩] }
    (by decide)
  refine ⟨by rw [h.1], ?_⟩
  rw [h.2.1 ("2.2") (by decide)]
  decide

end Dashboard
